import Mathlib

/-!
Shallow embedding of the mat4 transform subsystem of gl-matrix-ts
(src/mat4.ts, with the vec3/quat value types it reads from).

The TS code stores a 4x4 matrix as a 16-entry column-major array
`this.data`; we model the array as a structure with fields `d0 .. d15`,
one per index, and each method as a pure function.  Methods that mutate
`this.data` and return `this` become functions returning a new matrix;
methods that can `return null` (invert, rotate, fromRotation) return an
`Option`, where `none` models the null return, which in the source
happens before any write to `this.data`.  JS numbers are modelled as
exact scalars: generically over a `Field K` for the purely arithmetic
operations, and over `ℝ` (with `Real.sqrt`, `Real.sin`, `Real.cos` for
`Math.hypot`, `Math.sin`, `Math.cos`) for the rest.
-/

namespace GlMatrix

/-- The vec3 value type: `data[0], data[1], data[2]` (x, y, z). -/
structure Vec3 (K : Type) where
  x : K
  y : K
  z : K
deriving DecidableEq

/-- The quat value type, as read by mat4.ts: `q.data[0..3]` are
(x, y, z, w); mat4.ts is the only reader of these fields here. -/
structure Quat (K : Type) where
  x : K
  y : K
  z : K
  w : K
deriving DecidableEq

/-- The mat4 value type: field `dI` is `this.data[I]` of the source's
Float32Array (column-major, `data[4*col+row]`). -/
structure Mat4 (K : Type) where
  d0 : K
  d1 : K
  d2 : K
  d3 : K
  d4 : K
  d5 : K
  d6 : K
  d7 : K
  d8 : K
  d9 : K
  d10 : K
  d11 : K
  d12 : K
  d13 : K
  d14 : K
  d15 : K
deriving DecidableEq

variable {K : Type} [Field K]

/-- mat4._identity / identity(): ones on the diagonal, zero elsewhere. -/
def Mat4.identity : Mat4 K :=
  ⟨1, 0, 0, 0, 0, 1, 0, 0, 0, 0, 1, 0, 0, 0, 0, 1⟩

/-- determinant() (src/mat4.ts lines 350-382): expansion via the ten
2x2 sub-determinants `b0..b9`. -/
def Mat4.determinant (m : Mat4 K) : K :=
  let a00 := m.d0; let a01 := m.d1; let a02 := m.d2; let a03 := m.d3
  let a10 := m.d4; let a11 := m.d5; let a12 := m.d6; let a13 := m.d7
  let a20 := m.d8; let a21 := m.d9; let a22 := m.d10; let a23 := m.d11
  let a30 := m.d12; let a31 := m.d13; let a32 := m.d14; let a33 := m.d15
  let b0 := a00 * a11 - a01 * a10
  let b1 := a00 * a12 - a02 * a10
  let b2 := a01 * a12 - a02 * a11
  let b3 := a20 * a31 - a21 * a30
  let b4 := a20 * a32 - a22 * a30
  let b5 := a21 * a32 - a22 * a31
  let b6 := a00 * b5 - a01 * b4 + a02 * b3
  let b7 := a10 * b5 - a11 * b4 + a12 * b3
  let b8 := a20 * b2 - a21 * b1 + a22 * b0
  let b9 := a30 * b2 - a31 * b1 + a32 * b0
  a13 * b6 - a03 * b7 + a33 * b8 - a23 * b9

/-- adjoint() (src/mat4.ts lines 294-343): the 2x2-cofactor machinery of
invert without the division by the determinant. -/
def Mat4.adjoint (m : Mat4 K) : Mat4 K :=
  let a00 := m.d0; let a01 := m.d1; let a02 := m.d2; let a03 := m.d3
  let a10 := m.d4; let a11 := m.d5; let a12 := m.d6; let a13 := m.d7
  let a20 := m.d8; let a21 := m.d9; let a22 := m.d10; let a23 := m.d11
  let a30 := m.d12; let a31 := m.d13; let a32 := m.d14; let a33 := m.d15
  let b00 := a00 * a11 - a01 * a10
  let b01 := a00 * a12 - a02 * a10
  let b02 := a00 * a13 - a03 * a10
  let b03 := a01 * a12 - a02 * a11
  let b04 := a01 * a13 - a03 * a11
  let b05 := a02 * a13 - a03 * a12
  let b06 := a20 * a31 - a21 * a30
  let b07 := a20 * a32 - a22 * a30
  let b08 := a20 * a33 - a23 * a30
  let b09 := a21 * a32 - a22 * a31
  let b10 := a21 * a33 - a23 * a31
  let b11 := a22 * a33 - a23 * a32
  ⟨a11 * b11 - a12 * b10 + a13 * b09,
   a02 * b10 - a01 * b11 - a03 * b09,
   a31 * b05 - a32 * b04 + a33 * b03,
   a22 * b04 - a21 * b05 - a23 * b03,
   a12 * b08 - a10 * b11 - a13 * b07,
   a00 * b11 - a02 * b08 + a03 * b07,
   a32 * b02 - a30 * b05 - a33 * b01,
   a20 * b05 - a22 * b02 + a23 * b01,
   a10 * b10 - a11 * b08 + a13 * b06,
   a01 * b08 - a00 * b10 - a03 * b06,
   a30 * b04 - a31 * b02 + a33 * b00,
   a21 * b02 - a20 * b04 - a23 * b00,
   a11 * b07 - a10 * b09 - a12 * b06,
   a00 * b09 - a01 * b07 + a02 * b06,
   a31 * b01 - a30 * b03 - a32 * b00,
   a20 * b03 - a21 * b01 + a22 * b00⟩

/-- invert() (src/mat4.ts lines 229-287).  The source computes the six
2x2 cofactor pairs `b00..b11`, forms `det`, and `return null` when
`!det` (for an exact scalar: `det = 0`) -- the null return precedes every
write to `this.data`, so the array is left untouched; otherwise all 16
entries are overwritten with the adjugate entries times `1/det`. -/
def Mat4.invert [DecidableEq K] (m : Mat4 K) : Option (Mat4 K) :=
  let a00 := m.d0; let a01 := m.d1; let a02 := m.d2; let a03 := m.d3
  let a10 := m.d4; let a11 := m.d5; let a12 := m.d6; let a13 := m.d7
  let a20 := m.d8; let a21 := m.d9; let a22 := m.d10; let a23 := m.d11
  let a30 := m.d12; let a31 := m.d13; let a32 := m.d14; let a33 := m.d15
  let b00 := a00 * a11 - a01 * a10
  let b01 := a00 * a12 - a02 * a10
  let b02 := a00 * a13 - a03 * a10
  let b03 := a01 * a12 - a02 * a11
  let b04 := a01 * a13 - a03 * a11
  let b05 := a02 * a13 - a03 * a12
  let b06 := a20 * a31 - a21 * a30
  let b07 := a20 * a32 - a22 * a30
  let b08 := a20 * a33 - a23 * a30
  let b09 := a21 * a32 - a22 * a31
  let b10 := a21 * a33 - a23 * a31
  let b11 := a22 * a33 - a23 * a32
  let det := b00 * b11 - b01 * b10 + b02 * b09 + b03 * b08 - b04 * b07 + b05 * b06
  if det = 0 then
    none
  else
    let det := 1 / det
    some
      ⟨(a11 * b11 - a12 * b10 + a13 * b09) * det,
       (a02 * b10 - a01 * b11 - a03 * b09) * det,
       (a31 * b05 - a32 * b04 + a33 * b03) * det,
       (a22 * b04 - a21 * b05 - a23 * b03) * det,
       (a12 * b08 - a10 * b11 - a13 * b07) * det,
       (a00 * b11 - a02 * b08 + a03 * b07) * det,
       (a32 * b02 - a30 * b05 - a33 * b01) * det,
       (a20 * b05 - a22 * b02 + a23 * b01) * det,
       (a10 * b10 - a11 * b08 + a13 * b06) * det,
       (a01 * b08 - a00 * b10 - a03 * b06) * det,
       (a30 * b04 - a31 * b02 + a33 * b00) * det,
       (a21 * b02 - a20 * b04 - a23 * b00) * det,
       (a11 * b07 - a10 * b09 - a12 * b06) * det,
       (a00 * b09 - a01 * b07 + a02 * b06) * det,
       (a31 * b01 - a30 * b03 - a32 * b00) * det,
       (a20 * b03 - a21 * b01 + a22 * b00) * det⟩

/-- The contents of `this.data` after a call to invert(): the null return
happens before the first write, so on failure the array keeps its old
contents; on success it holds the returned matrix. -/
def Mat4.invertData [DecidableEq K] (m : Mat4 K) : Mat4 K :=
  match Mat4.invert m with
  | none => m
  | some n => n

/-- multiplyScalar() (src/mat4.ts lines 1776-1795). -/
def Mat4.multiplyScalar (m : Mat4 K) (s : K) : Mat4 K :=
  ⟨m.d0 * s, m.d1 * s, m.d2 * s, m.d3 * s,
   m.d4 * s, m.d5 * s, m.d6 * s, m.d7 * s,
   m.d8 * s, m.d9 * s, m.d10 * s, m.d11 * s,
   m.d12 * s, m.d13 * s, m.d14 * s, m.d15 * s⟩

/-- multiply() (src/mat4.ts lines 390-447): `a.multiply(b)` writes
`data[4*c+r] = b[4*c+0]*a[0*4+r] + b[4*c+1]*a[1*4+r] + ...` back into
`a`'s array; here it returns that matrix. -/
def Mat4.multiply (a b : Mat4 K) : Mat4 K :=
  let a00 := a.d0; let a01 := a.d1; let a02 := a.d2; let a03 := a.d3
  let a10 := a.d4; let a11 := a.d5; let a12 := a.d6; let a13 := a.d7
  let a20 := a.d8; let a21 := a.d9; let a22 := a.d10; let a23 := a.d11
  let a30 := a.d12; let a31 := a.d13; let a32 := a.d14; let a33 := a.d15
  ⟨b.d0 * a00 + b.d1 * a10 + b.d2 * a20 + b.d3 * a30,
   b.d0 * a01 + b.d1 * a11 + b.d2 * a21 + b.d3 * a31,
   b.d0 * a02 + b.d1 * a12 + b.d2 * a22 + b.d3 * a32,
   b.d0 * a03 + b.d1 * a13 + b.d2 * a23 + b.d3 * a33,
   b.d4 * a00 + b.d5 * a10 + b.d6 * a20 + b.d7 * a30,
   b.d4 * a01 + b.d5 * a11 + b.d6 * a21 + b.d7 * a31,
   b.d4 * a02 + b.d5 * a12 + b.d6 * a22 + b.d7 * a32,
   b.d4 * a03 + b.d5 * a13 + b.d6 * a23 + b.d7 * a33,
   b.d8 * a00 + b.d9 * a10 + b.d10 * a20 + b.d11 * a30,
   b.d8 * a01 + b.d9 * a11 + b.d10 * a21 + b.d11 * a31,
   b.d8 * a02 + b.d9 * a12 + b.d10 * a22 + b.d11 * a32,
   b.d8 * a03 + b.d9 * a13 + b.d10 * a23 + b.d11 * a33,
   b.d12 * a00 + b.d13 * a10 + b.d14 * a20 + b.d15 * a30,
   b.d12 * a01 + b.d13 * a11 + b.d14 * a21 + b.d15 * a31,
   b.d12 * a02 + b.d13 * a12 + b.d14 * a22 + b.d15 * a32,
   b.d12 * a03 + b.d13 * a13 + b.d14 * a23 + b.d15 * a33⟩

/-- fromScaling() (src/mat4.ts lines 704-724). -/
def Mat4.fromScaling (v : Vec3 K) : Mat4 K :=
  ⟨v.x, 0, 0, 0, 0, v.y, 0, 0, 0, 0, v.z, 0, 0, 0, 0, 1⟩

/-- fromRotationTranslationScale() (src/mat4.ts lines 1128-1173): the
quaternion rotation fill with basis column `i` scaled by `s[i]`, plus the
translation column. -/
def Mat4.fromRotationTranslationScale (rotation : Quat K) (translation : Vec3 K)
    (scaling : Vec3 K) : Mat4 K :=
  let x := rotation.x; let y := rotation.y; let z := rotation.z; let w := rotation.w
  let x2 := x + x
  let y2 := y + y
  let z2 := z + z
  let xx := x * x2
  let xy := x * y2
  let xz := x * z2
  let yy := y * y2
  let yz := y * z2
  let zz := z * z2
  let wx := w * x2
  let wy := w * y2
  let wz := w * z2
  let sx := scaling.x
  let sy := scaling.y
  let sz := scaling.z
  ⟨(1 - (yy + zz)) * sx,
   (xy + wz) * sx,
   (xz - wy) * sx,
   0,
   (xy - wz) * sy,
   (1 - (xx + zz)) * sy,
   (yz + wx) * sy,
   0,
   (xz + wy) * sz,
   (yz - wx) * sz,
   (1 - (xx + yy)) * sz,
   0,
   translation.x,
   translation.y,
   translation.z,
   1⟩

/-- fromRotationTranslationScaleOrigin() (src/mat4.ts lines 1193-1254):
the same nine block products `out0..out10`, with the translation column
adjusted by the origin through the freshly computed block. -/
def Mat4.fromRotationTranslationScaleOrigin (rotation : Quat K) (translation : Vec3 K)
    (scaling : Vec3 K) (origin : Vec3 K) : Mat4 K :=
  let x := rotation.x; let y := rotation.y; let z := rotation.z; let w := rotation.w
  let x2 := x + x
  let y2 := y + y
  let z2 := z + z
  let xx := x * x2
  let xy := x * y2
  let xz := x * z2
  let yy := y * y2
  let yz := y * z2
  let zz := z * z2
  let wx := w * x2
  let wy := w * y2
  let wz := w * z2
  let sx := scaling.x
  let sy := scaling.y
  let sz := scaling.z
  let ox := origin.x
  let oy := origin.y
  let oz := origin.z
  let out0 := (1 - (yy + zz)) * sx
  let out1 := (xy + wz) * sx
  let out2 := (xz - wy) * sx
  let out4 := (xy - wz) * sy
  let out5 := (1 - (xx + zz)) * sy
  let out6 := (yz + wx) * sy
  let out8 := (xz + wy) * sz
  let out9 := (yz - wx) * sz
  let out10 := (1 - (xx + yy)) * sz
  ⟨out0, out1, out2, 0,
   out4, out5, out6, 0,
   out8, out9, out10, 0,
   translation.x + ox - (out0 * ox + out4 * oy + out8 * oz),
   translation.y + oy - (out1 * ox + out5 * oy + out9 * oz),
   translation.z + oz - (out2 * ox + out6 * oy + out10 * oz),
   1⟩

/-- A sample invertible rational matrix (determinant 6) for witnesses. -/
def mWitInv : Mat4 ℚ :=
  ⟨1, 0, 0, 0, 0, 2, 0, 0, 0, 0, 3, 0, 4, 5, 6, 1⟩

set_option maxHeartbeats 2000000 in
/-- C1: for every invertible mat4 `M` (determinant nonzero), `invert`
succeeds and `multiply(M, invert(M))` is exactly the identity matrix in
the exact-arithmetic model (so in particular within the claimed
floating-point tolerance of 1e-5 per element). -/
theorem mul_invert_eq_identity [DecidableEq K] (m : Mat4 K)
    (h : Mat4.determinant m ≠ 0) :
    ∃ n, Mat4.invert m = some n ∧ Mat4.multiply m n = Mat4.identity := by
  rcases m with ⟨a00, a01, a02, a03, a10, a11, a12, a13, a20, a21, a22, a23, a30, a31, a32, a33⟩
  simp only [Mat4.invert]
  split_ifs with h0
  · exact absurd (by simp only [Mat4.determinant]; linear_combination h0) h
  · refine ⟨_, rfl, ?_⟩
    simp only [Mat4.multiply, Mat4.identity, Mat4.mk.injEq]
    refine ⟨?_, ?_, ?_, ?_, ?_, ?_, ?_, ?_, ?_, ?_, ?_, ?_, ?_, ?_, ?_, ?_⟩ <;>
      field_simp <;> ring

/-- Witness for C1 at the concrete matrix `mWitInv`. -/
theorem mul_invert_eq_identity_witness :
    Mat4.determinant mWitInv ≠ 0 ∧
      ∃ n, Mat4.invert mWitInv = some n ∧ Mat4.multiply mWitInv n = Mat4.identity :=
  ⟨by norm_num [mWitInv, Mat4.determinant],
   mul_invert_eq_identity mWitInv (by norm_num [mWitInv, Mat4.determinant])⟩

/-- A singular rational matrix with two identical rows (data[0..3] and
data[4..7]) for the C3 witness. -/
def mWitSing : Mat4 ℚ :=
  ⟨1, 2, 3, 4, 1, 2, 3, 4, 5, 6, 7, 8, 9, 10, 11, 12⟩

set_option maxHeartbeats 2000000 in
/-- C3: `invert` fails exactly when its computed determinant is exactly
zero; in that case it returns `none` (the null return precedes every
write, so `invertData`, the post-call contents of `this.data`, equals the
input); otherwise it overwrites all 16 elements with the adjugate divided
by the determinant. -/
theorem invert_zero_det_spec [DecidableEq K] (m : Mat4 K) :
    (Mat4.invert m = none ↔ Mat4.determinant m = 0) ∧
    (Mat4.determinant m = 0 → Mat4.invertData m = m) ∧
    (Mat4.determinant m ≠ 0 →
      Mat4.invert m = some (Mat4.multiplyScalar (Mat4.adjoint m) (1 / Mat4.determinant m))) := by
  have key : Mat4.invert m = none ↔ Mat4.determinant m = 0 := by
    rcases m with ⟨a00, a01, a02, a03, a10, a11, a12, a13, a20, a21, a22, a23, a30, a31, a32, a33⟩
    simp only [Mat4.invert, Mat4.determinant]
    split_ifs with h0
    · exact iff_of_true rfl (by linear_combination h0)
    · exact iff_of_false (by simp) (fun h => h0 (by linear_combination h))
  refine ⟨key, fun hd => ?_, fun h => ?_⟩
  · have hi : Mat4.invert m = none := key.mpr hd
    simp only [Mat4.invertData, hi]
  · rcases m with ⟨a00, a01, a02, a03, a10, a11, a12, a13, a20, a21, a22, a23, a30, a31, a32, a33⟩
    simp only [Mat4.determinant] at h
    simp only [Mat4.invert]
    split_ifs with h0
    · exact absurd (by linear_combination h0) h
    · simp only [Mat4.multiplyScalar, Mat4.adjoint, Mat4.determinant, Option.some.injEq,
        Mat4.mk.injEq]
      refine ⟨?_, ?_, ?_, ?_, ?_, ?_, ?_, ?_, ?_, ?_, ?_, ?_, ?_, ?_, ?_, ?_⟩ <;>
        field_simp <;> left <;> ring

/-- Witness for C3: a matrix with two identical rows has determinant
exactly 0, `invert` returns the failure signal there and leaves the data
unchanged, while on an invertible matrix it produces the adjugate divided
by the determinant. -/
theorem invert_zero_det_spec_witness :
    Mat4.invert mWitSing = none ∧ Mat4.invertData mWitSing = mWitSing ∧
      Mat4.invert mWitInv =
        some (Mat4.multiplyScalar (Mat4.adjoint mWitInv) (1 / Mat4.determinant mWitInv)) :=
  ⟨(invert_zero_det_spec mWitSing).1.mpr (by norm_num [mWitSing, Mat4.determinant]),
   (invert_zero_det_spec mWitSing).2.1 (by norm_num [mWitSing, Mat4.determinant]),
   (invert_zero_det_spec mWitInv).2.2 (by norm_num [mWitInv, Mat4.determinant])⟩

/-- C6: `fromRotationTranslationScaleOrigin(q, v, s, o)` has the same
upper-left 3x3 block (and zero fourth-row entries) as
`fromRotationTranslationScale(q, v, s)`, and its translation column is
`v + o - R·S·o` where `R·S·o` is the freshly computed rotated-and-scaled
3x3 block applied to `o`. -/
theorem fromRTSOrigin_spec (q : Quat K) (v s o : Vec3 K) :
    (Mat4.fromRotationTranslationScaleOrigin q v s o).d0 =
        (Mat4.fromRotationTranslationScale q v s).d0 ∧
    (Mat4.fromRotationTranslationScaleOrigin q v s o).d1 =
        (Mat4.fromRotationTranslationScale q v s).d1 ∧
    (Mat4.fromRotationTranslationScaleOrigin q v s o).d2 =
        (Mat4.fromRotationTranslationScale q v s).d2 ∧
    (Mat4.fromRotationTranslationScaleOrigin q v s o).d3 =
        (Mat4.fromRotationTranslationScale q v s).d3 ∧
    (Mat4.fromRotationTranslationScaleOrigin q v s o).d4 =
        (Mat4.fromRotationTranslationScale q v s).d4 ∧
    (Mat4.fromRotationTranslationScaleOrigin q v s o).d5 =
        (Mat4.fromRotationTranslationScale q v s).d5 ∧
    (Mat4.fromRotationTranslationScaleOrigin q v s o).d6 =
        (Mat4.fromRotationTranslationScale q v s).d6 ∧
    (Mat4.fromRotationTranslationScaleOrigin q v s o).d7 =
        (Mat4.fromRotationTranslationScale q v s).d7 ∧
    (Mat4.fromRotationTranslationScaleOrigin q v s o).d8 =
        (Mat4.fromRotationTranslationScale q v s).d8 ∧
    (Mat4.fromRotationTranslationScaleOrigin q v s o).d9 =
        (Mat4.fromRotationTranslationScale q v s).d9 ∧
    (Mat4.fromRotationTranslationScaleOrigin q v s o).d10 =
        (Mat4.fromRotationTranslationScale q v s).d10 ∧
    (Mat4.fromRotationTranslationScaleOrigin q v s o).d11 =
        (Mat4.fromRotationTranslationScale q v s).d11 ∧
    (Mat4.fromRotationTranslationScaleOrigin q v s o).d12 =
        v.x + o.x - ((Mat4.fromRotationTranslationScale q v s).d0 * o.x +
          (Mat4.fromRotationTranslationScale q v s).d4 * o.y +
          (Mat4.fromRotationTranslationScale q v s).d8 * o.z) ∧
    (Mat4.fromRotationTranslationScaleOrigin q v s o).d13 =
        v.y + o.y - ((Mat4.fromRotationTranslationScale q v s).d1 * o.x +
          (Mat4.fromRotationTranslationScale q v s).d5 * o.y +
          (Mat4.fromRotationTranslationScale q v s).d9 * o.z) ∧
    (Mat4.fromRotationTranslationScaleOrigin q v s o).d14 =
        v.z + o.z - ((Mat4.fromRotationTranslationScale q v s).d2 * o.x +
          (Mat4.fromRotationTranslationScale q v s).d6 * o.y +
          (Mat4.fromRotationTranslationScale q v s).d10 * o.z) ∧
    (Mat4.fromRotationTranslationScaleOrigin q v s o).d15 =
        (Mat4.fromRotationTranslationScale q v s).d15 := by
  rcases q with ⟨qx, qy, qz, qw⟩
  rcases v with ⟨vx, vy, vz⟩
  rcases s with ⟨sx, sy, sz⟩
  rcases o with ⟨ox, oy, oz⟩
  simp only [Mat4.fromRotationTranslationScaleOrigin, Mat4.fromRotationTranslationScale]
  refine ⟨?_, ?_, ?_, ?_, ?_, ?_, ?_, ?_, ?_, ?_, ?_, ?_, ?_, ?_, ?_, ?_⟩ <;> trivial

/-- mathf.EPSILON = 0.000001 (src/mathf.ts). -/
def EPSILON : ℝ := 1e-6

/-- Math.hypot on three arguments: the square root of the sum of squares. -/
noncomputable def hypot3 (a b c : ℝ) : ℝ := Real.sqrt (a * a + b * b + c * c)

/-- fromRotation() (src/mat4.ts lines 737-777): Rodrigues' rotation
formula around `axis`; `return null` (here `none`) when the axis length
is below EPSILON -- the guard precedes every write to `this.data`. -/
noncomputable def Mat4.fromRotation (rad : ℝ) (axis : Vec3 ℝ) : Option (Mat4 ℝ) :=
  let x := axis.x; let y := axis.y; let z := axis.z
  let len := hypot3 x y z
  if len < EPSILON then
    none
  else
    let len := 1 / len
    let x := x * len
    let y := y * len
    let z := z * len
    let s := Real.sin rad
    let c := Real.cos rad
    let t := 1 - c
    some
      ⟨x * x * t + c,
       y * x * t + z * s,
       z * x * t - y * s,
       0,
       x * y * t - z * s,
       y * y * t + c,
       z * y * t + x * s,
       0,
       x * z * t + y * s,
       y * z * t - x * s,
       z * z * t + c,
       0, 0, 0, 0, 1⟩

/-- fromXRotation() (src/mat4.ts lines 788-811). -/
noncomputable def Mat4.fromXRotation (rad : ℝ) : Mat4 ℝ :=
  let s := Real.sin rad
  let c := Real.cos rad
  ⟨1, 0, 0, 0, 0, c, s, 0, 0, -s, c, 0, 0, 0, 0, 1⟩

/-- fromYRotation() (src/mat4.ts lines 822-845). -/
noncomputable def Mat4.fromYRotation (rad : ℝ) : Mat4 ℝ :=
  let s := Real.sin rad
  let c := Real.cos rad
  ⟨c, 0, -s, 0, 0, 1, 0, 0, s, 0, c, 0, 0, 0, 0, 1⟩

/-- fromZRotation() (src/mat4.ts lines 856-879). -/
noncomputable def Mat4.fromZRotation (rad : ℝ) : Mat4 ℝ :=
  let s := Real.sin rad
  let c := Real.cos rad
  ⟨c, s, 0, 0, -s, c, 0, 0, 0, 0, 1, 0, 0, 0, 0, 1⟩

/-- rotate() (src/mat4.ts lines 505-571): the same degenerate-axis guard
as fromRotation (again before every write), then the first three columns
of `this.data` are recombined with the Rodrigues coefficients `b00..b22`;
`data[12..15]` are never written. -/
noncomputable def Mat4.rotate (rad : ℝ) (axis : Vec3 ℝ) (m : Mat4 ℝ) : Option (Mat4 ℝ) :=
  let x := axis.x; let y := axis.y; let z := axis.z
  let len := hypot3 x y z
  if len < EPSILON then
    none
  else
    let len := 1 / len
    let x := x * len
    let y := y * len
    let z := z * len
    let s := Real.sin rad
    let c := Real.cos rad
    let t := 1 - c
    let a00 := m.d0; let a01 := m.d1; let a02 := m.d2; let a03 := m.d3
    let a10 := m.d4; let a11 := m.d5; let a12 := m.d6; let a13 := m.d7
    let a20 := m.d8; let a21 := m.d9; let a22 := m.d10; let a23 := m.d11
    let b00 := x * x * t + c
    let b01 := y * x * t + z * s
    let b02 := z * x * t - y * s
    let b10 := x * y * t - z * s
    let b11 := y * y * t + c
    let b12 := z * y * t + x * s
    let b20 := x * z * t + y * s
    let b21 := y * z * t - x * s
    let b22 := z * z * t + c
    some
      ⟨a00 * b00 + a10 * b01 + a20 * b02,
       a01 * b00 + a11 * b01 + a21 * b02,
       a02 * b00 + a12 * b01 + a22 * b02,
       a03 * b00 + a13 * b01 + a23 * b02,
       a00 * b10 + a10 * b11 + a20 * b12,
       a01 * b10 + a11 * b11 + a21 * b12,
       a02 * b10 + a12 * b11 + a22 * b12,
       a03 * b10 + a13 * b11 + a23 * b12,
       a00 * b20 + a10 * b21 + a20 * b22,
       a01 * b20 + a11 * b21 + a21 * b22,
       a02 * b20 + a12 * b21 + a22 * b22,
       a03 * b20 + a13 * b21 + a23 * b22,
       m.d12, m.d13, m.d14, m.d15⟩

/-- The contents of `this.data` after a call to rotate(): the null return
precedes the first write, so on failure the array keeps its contents. -/
noncomputable def Mat4.rotateData (rad : ℝ) (axis : Vec3 ℝ) (m : Mat4 ℝ) : Mat4 ℝ :=
  match Mat4.rotate rad axis m with
  | none => m
  | some n => n

/-- The contents of `this.data` after a call to fromRotation() on a
matrix holding `m`: unchanged on the null return, else the built matrix. -/
noncomputable def Mat4.fromRotationData (rad : ℝ) (axis : Vec3 ℝ) (m : Mat4 ℝ) : Mat4 ℝ :=
  match Mat4.fromRotation rad axis with
  | none => m
  | some n => n

/-- getScaling() (src/mat4.ts lines 960-976): the three row norms of the
upper-left 3x3 block. -/
noncomputable def Mat4.getScaling (m : Mat4 ℝ) : Vec3 ℝ :=
  ⟨hypot3 m.d0 m.d1 m.d2, hypot3 m.d4 m.d5 m.d6, hypot3 m.d8 m.d9 m.d10⟩

/-- decompose() (src/mat4.ts lines 1044-1111): writes the translation
column into `out_t`, the three row norms into `out_s`, then divides
`m{i}{j}` by `out_s[j-1]` (`sm{i}{j} = m{i}{j} * is{j}`) and extracts a
quaternion from the `sm` values by the four-way trace/diagonal branch
select.  Returned here as the written triple `(out_r, out_t, out_s)`. -/
noncomputable def Mat4.decompose (m : Mat4 ℝ) : Quat ℝ × Vec3 ℝ × Vec3 ℝ :=
  let out_t : Vec3 ℝ := ⟨m.d12, m.d13, m.d14⟩
  let m11 := m.d0; let m12 := m.d1; let m13 := m.d2
  let m21 := m.d4; let m22 := m.d5; let m23 := m.d6
  let m31 := m.d8; let m32 := m.d9; let m33 := m.d10
  let s0 := hypot3 m11 m12 m13
  let s1 := hypot3 m21 m22 m23
  let s2 := hypot3 m31 m32 m33
  let out_s : Vec3 ℝ := ⟨s0, s1, s2⟩
  let is1 := 1 / s0
  let is2 := 1 / s1
  let is3 := 1 / s2
  let sm11 := m11 * is1
  let sm12 := m12 * is2
  let sm13 := m13 * is3
  let sm21 := m21 * is1
  let sm22 := m22 * is2
  let sm23 := m23 * is3
  let sm31 := m31 * is1
  let sm32 := m32 * is2
  let sm33 := m33 * is3
  let trace := sm11 + sm22 + sm33
  let out_r : Quat ℝ :=
    if trace > 0 then
      let S := Real.sqrt (trace + 1) * 2
      ⟨(sm23 - sm32) / S, (sm31 - sm13) / S, (sm12 - sm21) / S, 0.25 * S⟩
    else if sm11 > sm22 ∧ sm11 > sm33 then
      let S := Real.sqrt (1 + sm11 - sm22 - sm33) * 2
      ⟨0.25 * S, (sm12 + sm21) / S, (sm31 + sm13) / S, (sm23 - sm32) / S⟩
    else if sm22 > sm33 then
      let S := Real.sqrt (1 + sm22 - sm11 - sm33) * 2
      ⟨(sm12 + sm21) / S, 0.25 * S, (sm23 + sm32) / S, (sm31 - sm13) / S⟩
    else
      let S := Real.sqrt (1 + sm33 - sm11 - sm22) * 2
      ⟨(sm31 + sm13) / S, (sm23 + sm32) / S, 0.25 * S, (sm12 - sm21) / S⟩
  (out_r, out_t, out_s)

/-- lookAt() (src/mat4.ts lines 1541-1623): identity fallback when eye
and center coincide within EPSILON on all three axes; otherwise the
camera-basis construction (`!len` on an exact scalar is `len = 0`). -/
noncomputable def Mat4.lookAt (eye center up : Vec3 ℝ) : Mat4 ℝ :=
  let eyex := eye.x; let eyey := eye.y; let eyez := eye.z
  let upx := up.x; let upy := up.y; let upz := up.z
  let centerx := center.x; let centery := center.y; let centerz := center.z
  if |eyex - centerx| < EPSILON ∧ |eyey - centery| < EPSILON ∧ |eyez - centerz| < EPSILON then
    Mat4.identity
  else
    let z0 := eyex - centerx
    let z1 := eyey - centery
    let z2 := eyez - centerz
    let len := 1 / hypot3 z0 z1 z2
    let z0 := z0 * len
    let z1 := z1 * len
    let z2 := z2 * len
    let x0 := upy * z2 - upz * z1
    let x1 := upz * z0 - upx * z2
    let x2 := upx * z1 - upy * z0
    let lenx := hypot3 x0 x1 x2
    let x0 := if lenx = 0 then 0 else x0 * (1 / lenx)
    let x1 := if lenx = 0 then 0 else x1 * (1 / lenx)
    let x2 := if lenx = 0 then 0 else x2 * (1 / lenx)
    let y0 := z1 * x2 - z2 * x1
    let y1 := z2 * x0 - z0 * x2
    let y2 := z0 * x1 - z1 * x0
    let leny := hypot3 y0 y1 y2
    let y0 := if leny = 0 then 0 else y0 * (1 / leny)
    let y1 := if leny = 0 then 0 else y1 * (1 / leny)
    let y2 := if leny = 0 then 0 else y2 * (1 / leny)
    ⟨x0, y0, z0, 0,
     x1, y1, z1, 0,
     x2, y2, z2, 0,
     -(x0 * eyex + x1 * eyey + x2 * eyez),
     -(y0 * eyex + y1 * eyey + y2 * eyez),
     -(z0 * eyex + z1 * eyey + z2 * eyez),
     1⟩

/-- C4: for every angle and every axis whose Euclidean length is below
EPSILON (1e-6), `fromRotation` and `rotate` return the failure signal and
produce no matrix; for every axis of length at least EPSILON they
succeed. -/
theorem rotation_axis_guard (rad : ℝ) (axis : Vec3 ℝ) (m : Mat4 ℝ) :
    (hypot3 axis.x axis.y axis.z < EPSILON →
      Mat4.fromRotation rad axis = none ∧ Mat4.rotate rad axis m = none) ∧
    (EPSILON ≤ hypot3 axis.x axis.y axis.z →
      (∃ r, Mat4.fromRotation rad axis = some r) ∧
      (∃ r, Mat4.rotate rad axis m = some r)) := by
  constructor
  · intro h
    constructor
    · simp only [Mat4.fromRotation]
      rw [if_pos h]
    · simp only [Mat4.rotate]
      rw [if_pos h]
  · intro h
    constructor
    · simp only [Mat4.fromRotation]
      rw [if_neg (not_lt.mpr h)]
      exact ⟨_, rfl⟩
    · simp only [Mat4.rotate]
      rw [if_neg (not_lt.mpr h)]
      exact ⟨_, rfl⟩

/-- Witness for C4 at the degenerate axis (0,0,0) and the unit axis
(1,0,0). -/
theorem rotation_axis_guard_witness :
    (Mat4.fromRotation 1 ⟨0, 0, 0⟩ = none ∧ Mat4.rotate 1 ⟨0, 0, 0⟩ Mat4.identity = none) ∧
    ((∃ r, Mat4.fromRotation 1 ⟨1, 0, 0⟩ = some r) ∧
      (∃ r, Mat4.rotate 1 ⟨1, 0, 0⟩ Mat4.identity = some r)) :=
  ⟨(rotation_axis_guard 1 ⟨0, 0, 0⟩ Mat4.identity).1
      (by norm_num [hypot3, EPSILON, Real.sqrt_zero]),
   (rotation_axis_guard 1 ⟨1, 0, 0⟩ Mat4.identity).2
      (by norm_num [hypot3, EPSILON, Real.sqrt_one])⟩

/-- C10: whenever `rotate` or `fromRotation` signals failure, the
receiving matrix data is exactly unchanged (the degenerate-axis check
precedes every write), and failure happens exactly when the axis length
is below EPSILON. -/
theorem rotate_guard_no_write (rad : ℝ) (axis : Vec3 ℝ) (m : Mat4 ℝ) :
    (Mat4.rotate rad axis m = none → Mat4.rotateData rad axis m = m) ∧
    (Mat4.fromRotation rad axis = none → Mat4.fromRotationData rad axis m = m) ∧
    (Mat4.rotate rad axis m = none ↔ hypot3 axis.x axis.y axis.z < EPSILON) ∧
    (Mat4.fromRotation rad axis = none ↔ hypot3 axis.x axis.y axis.z < EPSILON) := by
  refine ⟨fun h => ?_, fun h => ?_, ?_, ?_⟩
  · simp only [Mat4.rotateData, h]
  · simp only [Mat4.fromRotationData, h]
  · simp only [Mat4.rotate]
    split_ifs with hc
    · exact iff_of_true rfl hc
    · exact iff_of_false (by simp) hc
  · simp only [Mat4.fromRotation]
    split_ifs with hc
    · exact iff_of_true rfl hc
    · exact iff_of_false (by simp) hc

/-- Witness for C10 at the degenerate axis (0,0,0). -/
theorem rotate_guard_no_write_witness :
    Mat4.rotateData 1 ⟨0, 0, 0⟩ Mat4.identity = Mat4.identity ∧
      Mat4.fromRotationData 1 ⟨0, 0, 0⟩ Mat4.identity = Mat4.identity :=
  ⟨(rotate_guard_no_write 1 ⟨0, 0, 0⟩ Mat4.identity).1
      ((rotate_guard_no_write 1 ⟨0, 0, 0⟩ Mat4.identity).2.2.1.mpr
        (by norm_num [hypot3, EPSILON, Real.sqrt_zero])),
   (rotate_guard_no_write 1 ⟨0, 0, 0⟩ Mat4.identity).2.1
      ((rotate_guard_no_write 1 ⟨0, 0, 0⟩ Mat4.identity).2.2.2.mpr
        (by norm_num [hypot3, EPSILON, Real.sqrt_zero]))⟩

/-- C7: when eye and center coincide within EPSILON on all three axes,
`lookAt` returns exactly the identity matrix. -/
theorem lookAt_identity_fallback (eye center up : Vec3 ℝ)
    (h : |eye.x - center.x| < EPSILON ∧ |eye.y - center.y| < EPSILON ∧
      |eye.z - center.z| < EPSILON) :
    Mat4.lookAt eye center up = Mat4.identity := by
  simp only [Mat4.lookAt]
  rw [if_pos h]

/-- Witness for C7: `lookAt(eye={1,2,3}, center={1,2,3}, up={0,1,0})`
returns exactly the identity matrix. -/
theorem lookAt_identity_fallback_witness :
    Mat4.lookAt ⟨1, 2, 3⟩ ⟨1, 2, 3⟩ ⟨0, 1, 0⟩ = Mat4.identity :=
  lookAt_identity_fallback ⟨1, 2, 3⟩ ⟨1, 2, 3⟩ ⟨0, 1, 0⟩ (by norm_num [EPSILON])

/-- C9: `getScaling` always returns non-negative components, and on
`fromScaling({-2,3,4})` returns the absolute values {2,3,4}: the sign of
a negative scale cannot be recovered. -/
theorem getScaling_nonneg_and_abs :
    (∀ m : Mat4 ℝ, 0 ≤ (Mat4.getScaling m).x ∧ 0 ≤ (Mat4.getScaling m).y ∧
      0 ≤ (Mat4.getScaling m).z) ∧
    Mat4.getScaling (Mat4.fromScaling ⟨-2, 3, 4⟩) = ⟨2, 3, 4⟩ := by
  constructor
  · intro m
    exact ⟨Real.sqrt_nonneg _, Real.sqrt_nonneg _, Real.sqrt_nonneg _⟩
  · simp only [Mat4.getScaling, Mat4.fromScaling, hypot3, Vec3.mk.injEq]
    norm_num
    refine ⟨?_, ?_, ?_⟩
    · rw [show ((4 : ℝ)) = 2 ^ 2 by norm_num]
      exact Real.sqrt_sq (by norm_num)
    · rw [show ((9 : ℝ)) = 3 ^ 2 by norm_num]
      exact Real.sqrt_sq (by norm_num)
    · rw [show ((16 : ℝ)) = 4 ^ 2 by norm_num]
      exact Real.sqrt_sq (by norm_num)

/-- C8: `fromRotation(rad, axis)` with the unit X/Y/Z axis produces
exactly the matrix of `fromXRotation`/`fromYRotation`/`fromZRotation`
(the specialized fills), for every angle. -/
theorem fromRotation_axis_specializations (rad : ℝ) :
    Mat4.fromRotation rad ⟨1, 0, 0⟩ = some (Mat4.fromXRotation rad) ∧
    Mat4.fromRotation rad ⟨0, 1, 0⟩ = some (Mat4.fromYRotation rad) ∧
    Mat4.fromRotation rad ⟨0, 0, 1⟩ = some (Mat4.fromZRotation rad) := by
  have hx : hypot3 1 0 0 = 1 := by norm_num [hypot3, Real.sqrt_one]
  have hy : hypot3 0 1 0 = 1 := by norm_num [hypot3, Real.sqrt_one]
  have hz : hypot3 0 0 1 = 1 := by norm_num [hypot3, Real.sqrt_one]
  have heps : ¬ ((1 : ℝ) < EPSILON) := by norm_num [EPSILON]
  refine ⟨?_, ?_, ?_⟩ <;>
    · simp only [Mat4.fromRotation, Mat4.fromXRotation, Mat4.fromYRotation,
        Mat4.fromZRotation, hx, hy, hz]
      rw [if_neg heps]
      simp only [Option.some.injEq, Mat4.mk.injEq]
      norm_num

/-- The identity matrix with `data[3]` (a fourth-row element of the
column-major layout) set to 1, used to show that rotate() rewrites that
element. -/
def mWitRow4 : Mat4 ℝ :=
  ⟨1, 0, 0, 1, 0, 1, 0, 0, 0, 0, 1, 0, 0, 0, 0, 1⟩

/-- Counterexample to C5 as stated: `rotate(π, {0,0,1})` on a matrix with
`data[3] = 1` rewrites that element to -1, so the fourth row/column of a
general matrix is NOT left untouched (indices 3, 7, 11 are recombined with
the rotation coefficients). -/
theorem rotate_fourth_row_counterexample :
    (Mat4.rotate Real.pi ⟨0, 0, 1⟩ mWitRow4).map Mat4.d3 = some (-1) ∧
      mWitRow4.d3 = 1 := by
  constructor
  · simp only [Mat4.rotate, mWitRow4, hypot3]
    norm_num [EPSILON, Real.sqrt_one, Real.cos_pi, Real.sin_pi]
  · norm_num [mWitRow4]

/-- C5 (amended): for a non-degenerate axis, `rotate` leaves the fourth
column (`data[12..15]`) untouched and recombines each of the first three
columns of `m` -- including their fourth-row elements `data[3,7,11]` --
with the Rodrigues coefficients (the 3x3 block of `fromRotation`); when
the fourth-row elements are zero (an affine matrix) they stay zero, so
only the upper-left 3x3 block changes. -/
theorem rotate_block_update (rad : ℝ) (axis : Vec3 ℝ) (m : Mat4 ℝ)
    (h : ¬ hypot3 axis.x axis.y axis.z < EPSILON) :
    ∃ n r, Mat4.rotate rad axis m = some n ∧ Mat4.fromRotation rad axis = some r ∧
      (n.d12 = m.d12 ∧ n.d13 = m.d13 ∧ n.d14 = m.d14 ∧ n.d15 = m.d15) ∧
      (n.d0 = m.d0 * r.d0 + m.d4 * r.d1 + m.d8 * r.d2 ∧
       n.d1 = m.d1 * r.d0 + m.d5 * r.d1 + m.d9 * r.d2 ∧
       n.d2 = m.d2 * r.d0 + m.d6 * r.d1 + m.d10 * r.d2 ∧
       n.d3 = m.d3 * r.d0 + m.d7 * r.d1 + m.d11 * r.d2 ∧
       n.d4 = m.d0 * r.d4 + m.d4 * r.d5 + m.d8 * r.d6 ∧
       n.d5 = m.d1 * r.d4 + m.d5 * r.d5 + m.d9 * r.d6 ∧
       n.d6 = m.d2 * r.d4 + m.d6 * r.d5 + m.d10 * r.d6 ∧
       n.d7 = m.d3 * r.d4 + m.d7 * r.d5 + m.d11 * r.d6 ∧
       n.d8 = m.d0 * r.d8 + m.d4 * r.d9 + m.d8 * r.d10 ∧
       n.d9 = m.d1 * r.d8 + m.d5 * r.d9 + m.d9 * r.d10 ∧
       n.d10 = m.d2 * r.d8 + m.d6 * r.d9 + m.d10 * r.d10 ∧
       n.d11 = m.d3 * r.d8 + m.d7 * r.d9 + m.d11 * r.d10) ∧
      (m.d3 = 0 → m.d7 = 0 → m.d11 = 0 → n.d3 = 0 ∧ n.d7 = 0 ∧ n.d11 = 0) := by
  simp only [Mat4.rotate, Mat4.fromRotation]
  rw [if_neg h, if_neg h]
  refine ⟨_, _, rfl, rfl, ⟨rfl, rfl, rfl, rfl⟩,
    ⟨rfl, rfl, rfl, rfl, rfl, rfl, rfl, rfl, rfl, rfl, rfl, rfl⟩,
    fun h3 h7 h11 => ?_⟩
  refine ⟨?_, ?_, ?_⟩ <;> simp [h3, h7, h11]

/-- Witness for C5 (amended) at axis (1,0,0), angle 0, on the identity
matrix. -/
theorem rotate_block_update_witness :
    ∃ n r, Mat4.rotate 0 ⟨1, 0, 0⟩ Mat4.identity = some n ∧
      Mat4.fromRotation 0 ⟨1, 0, 0⟩ = some r ∧
      (n.d12 = (Mat4.identity : Mat4 ℝ).d12 ∧ n.d13 = (Mat4.identity : Mat4 ℝ).d13 ∧
        n.d14 = (Mat4.identity : Mat4 ℝ).d14 ∧ n.d15 = (Mat4.identity : Mat4 ℝ).d15) ∧
      (n.d0 = (Mat4.identity : Mat4 ℝ).d0 * r.d0 + (Mat4.identity : Mat4 ℝ).d4 * r.d1 +
          (Mat4.identity : Mat4 ℝ).d8 * r.d2 ∧
       n.d1 = (Mat4.identity : Mat4 ℝ).d1 * r.d0 + (Mat4.identity : Mat4 ℝ).d5 * r.d1 +
          (Mat4.identity : Mat4 ℝ).d9 * r.d2 ∧
       n.d2 = (Mat4.identity : Mat4 ℝ).d2 * r.d0 + (Mat4.identity : Mat4 ℝ).d6 * r.d1 +
          (Mat4.identity : Mat4 ℝ).d10 * r.d2 ∧
       n.d3 = (Mat4.identity : Mat4 ℝ).d3 * r.d0 + (Mat4.identity : Mat4 ℝ).d7 * r.d1 +
          (Mat4.identity : Mat4 ℝ).d11 * r.d2 ∧
       n.d4 = (Mat4.identity : Mat4 ℝ).d0 * r.d4 + (Mat4.identity : Mat4 ℝ).d4 * r.d5 +
          (Mat4.identity : Mat4 ℝ).d8 * r.d6 ∧
       n.d5 = (Mat4.identity : Mat4 ℝ).d1 * r.d4 + (Mat4.identity : Mat4 ℝ).d5 * r.d5 +
          (Mat4.identity : Mat4 ℝ).d9 * r.d6 ∧
       n.d6 = (Mat4.identity : Mat4 ℝ).d2 * r.d4 + (Mat4.identity : Mat4 ℝ).d6 * r.d5 +
          (Mat4.identity : Mat4 ℝ).d10 * r.d6 ∧
       n.d7 = (Mat4.identity : Mat4 ℝ).d3 * r.d4 + (Mat4.identity : Mat4 ℝ).d7 * r.d5 +
          (Mat4.identity : Mat4 ℝ).d11 * r.d6 ∧
       n.d8 = (Mat4.identity : Mat4 ℝ).d0 * r.d8 + (Mat4.identity : Mat4 ℝ).d4 * r.d9 +
          (Mat4.identity : Mat4 ℝ).d8 * r.d10 ∧
       n.d9 = (Mat4.identity : Mat4 ℝ).d1 * r.d8 + (Mat4.identity : Mat4 ℝ).d5 * r.d9 +
          (Mat4.identity : Mat4 ℝ).d9 * r.d10 ∧
       n.d10 = (Mat4.identity : Mat4 ℝ).d2 * r.d8 + (Mat4.identity : Mat4 ℝ).d6 * r.d9 +
          (Mat4.identity : Mat4 ℝ).d10 * r.d10 ∧
       n.d11 = (Mat4.identity : Mat4 ℝ).d3 * r.d8 + (Mat4.identity : Mat4 ℝ).d7 * r.d9 +
          (Mat4.identity : Mat4 ℝ).d11 * r.d10) ∧
      ((Mat4.identity : Mat4 ℝ).d3 = 0 → (Mat4.identity : Mat4 ℝ).d7 = 0 →
        (Mat4.identity : Mat4 ℝ).d11 = 0 → n.d3 = 0 ∧ n.d7 = 0 ∧ n.d11 = 0) :=
  rotate_block_update 0 ⟨1, 0, 0⟩ Mat4.identity
    (by norm_num [hypot3, EPSILON, Real.sqrt_one])

/-- The C2 counterexample input: the normalized quaternion
(0, 0, 3/5, 4/5), zero translation, and the positive but non-uniform
scale (2, 1, 1). -/
noncomputable def mWitC2 : Mat4 ℝ :=
  Mat4.fromRotationTranslationScale ⟨0, 0, 3/5, 4/5⟩ ⟨0, 0, 0⟩ ⟨2, 1, 1⟩

/-- Counterexample to C2 as stated: for the normalized quaternion
q = (0, 0, 3/5, 4/5) and positive scale (2, 1, 1), decompose recovers the
translation and the scale but writes q'.z = 3/4, which is farther than
1e-5 from both q.z = 3/5 and (-q).z = -3/5: the extraction divides matrix
entries by mismatched scale components, so the quaternion is recovered
neither as q nor as -q. -/
theorem decompose_roundtrip_counterexample :
    (Mat4.decompose mWitC2).1 = ⟨0, 0, 3/4, 4/5⟩ ∧
    (Mat4.decompose mWitC2).2.1 = ⟨0, 0, 0⟩ ∧
    (Mat4.decompose mWitC2).2.2 = ⟨2, 1, 1⟩ ∧
    (1e-5 : ℝ) < |3/4 - 3/5| ∧ (1e-5 : ℝ) < |3/4 - -(3/5)| := by
  have hm : mWitC2 =
      ⟨14/25, 48/25, 0, 0, -(24/25), 7/25, 0, 0, 0, 0, 1, 0, 0, 0, 0, 1⟩ := by
    simp only [mWitC2, Mat4.fromRotationTranslationScale, Mat4.mk.injEq]
    norm_num
  have h1 : hypot3 ((14 : ℝ)/25) (48/25) 0 = 2 := by
    simp only [hypot3]
    rw [show ((14:ℝ)/25 * (14/25) + 48/25 * (48/25) + 0 * 0) = 2 ^ 2 by norm_num]
    exact Real.sqrt_sq (by norm_num)
  have h2 : hypot3 (-((24 : ℝ)/25)) (7/25) 0 = 1 := by
    simp only [hypot3]
    rw [show (-((24:ℝ)/25) * -(24/25) + 7/25 * (7/25) + 0 * 0) = 1 ^ 2 by norm_num]
    exact Real.sqrt_sq (by norm_num)
  have h3 : hypot3 (0 : ℝ) 0 1 = 1 := by
    simp only [hypot3]
    rw [show ((0:ℝ) * 0 + 0 * 0 + 1 * 1) = 1 ^ 2 by norm_num]
    exact Real.sqrt_sq (by norm_num)
  have hS : Real.sqrt ((64 : ℝ)/25) = 8/5 := by
    rw [show ((64:ℝ)/25) = (8/5) ^ 2 by norm_num]
    exact Real.sqrt_sq (by norm_num)
  have hdec : Mat4.decompose
      ⟨14/25, 48/25, 0, 0, -(24/25), 7/25, 0, 0, 0, 0, 1, 0, 0, 0, 0, 1⟩ =
      (⟨0, 0, 3/4, 4/5⟩, ⟨0, 0, 0⟩, ⟨2, 1, 1⟩) := by
    simp only [Mat4.decompose, h1, h2, h3]
    norm_num [hS, Prod.mk.injEq, Quat.mk.injEq, Vec3.mk.injEq]
  refine ⟨?_, ?_, ?_, ?_, ?_⟩
  · rw [hm, hdec]
  · rw [hm, hdec]
  · rw [hm, hdec]
  · rw [abs_of_pos (show (0:ℝ) < 3/4 - 3/5 by norm_num)]
    norm_num
  · rw [abs_of_pos (show (0:ℝ) < 3/4 - -(3/5) by norm_num)]
    norm_num

/-- The four-way trace/diagonal branch select of decompose(), applied to
values `sm{i}{j}` that equal the rotation-matrix entries of a unit
quaternion (x, y, z, w), recovers exactly (x, y, z, w) or its negation:
each branch's square root resolves to twice the absolute value of a
pivot component that the branch conditions force to be nonzero. -/
lemma quat_branch_select {sm11 sm12 sm13 sm21 sm22 sm23 sm31 sm32 sm33 : ℝ}
    (q' : Quat ℝ) (x y z w : ℝ)
    (hq : x ^ 2 + y ^ 2 + z ^ 2 + w ^ 2 = 1)
    (h11 : sm11 = 1 - 2 * y ^ 2 - 2 * z ^ 2)
    (h12 : sm12 = 2 * x * y + 2 * w * z)
    (h13 : sm13 = 2 * x * z - 2 * w * y)
    (h21 : sm21 = 2 * x * y - 2 * w * z)
    (h22 : sm22 = 1 - 2 * x ^ 2 - 2 * z ^ 2)
    (h23 : sm23 = 2 * y * z + 2 * w * x)
    (h31 : sm31 = 2 * x * z + 2 * w * y)
    (h32 : sm32 = 2 * y * z - 2 * w * x)
    (h33 : sm33 = 1 - 2 * x ^ 2 - 2 * y ^ 2)
    (hq' : q' =
      if sm11 + sm22 + sm33 > 0 then
        ⟨(sm23 - sm32) / (Real.sqrt (sm11 + sm22 + sm33 + 1) * 2),
         (sm31 - sm13) / (Real.sqrt (sm11 + sm22 + sm33 + 1) * 2),
         (sm12 - sm21) / (Real.sqrt (sm11 + sm22 + sm33 + 1) * 2),
         0.25 * (Real.sqrt (sm11 + sm22 + sm33 + 1) * 2)⟩
      else if sm11 > sm22 ∧ sm11 > sm33 then
        ⟨0.25 * (Real.sqrt (1 + sm11 - sm22 - sm33) * 2),
         (sm12 + sm21) / (Real.sqrt (1 + sm11 - sm22 - sm33) * 2),
         (sm31 + sm13) / (Real.sqrt (1 + sm11 - sm22 - sm33) * 2),
         (sm23 - sm32) / (Real.sqrt (1 + sm11 - sm22 - sm33) * 2)⟩
      else if sm22 > sm33 then
        ⟨(sm12 + sm21) / (Real.sqrt (1 + sm22 - sm11 - sm33) * 2),
         0.25 * (Real.sqrt (1 + sm22 - sm11 - sm33) * 2),
         (sm23 + sm32) / (Real.sqrt (1 + sm22 - sm11 - sm33) * 2),
         (sm31 - sm13) / (Real.sqrt (1 + sm22 - sm11 - sm33) * 2)⟩
      else
        ⟨(sm31 + sm13) / (Real.sqrt (1 + sm33 - sm11 - sm22) * 2),
         (sm23 + sm32) / (Real.sqrt (1 + sm33 - sm11 - sm22) * 2),
         0.25 * (Real.sqrt (1 + sm33 - sm11 - sm22) * 2),
         (sm12 - sm21) / (Real.sqrt (1 + sm33 - sm11 - sm22) * 2)⟩) :
    q' = ⟨x, y, z, w⟩ ∨ q' = ⟨-x, -y, -z, -w⟩ := by
  subst h11 h12 h13 h21 h22 h23 h31 h32 h33 hq'
  split_ifs with hb1 hb2 hb3
  · -- trace > 0: pivot w
    have hw2 : (1 : ℝ) / 4 < w ^ 2 := by nlinarith [hq]
    have hw0 : w ≠ 0 := by
      intro h0
      rw [h0] at hw2
      norm_num at hw2
    have hsq : Real.sqrt (1 - 2 * y ^ 2 - 2 * z ^ 2 + (1 - 2 * x ^ 2 - 2 * z ^ 2) +
        (1 - 2 * x ^ 2 - 2 * y ^ 2) + 1) = |2 * w| := by
      rw [show (1 - 2 * y ^ 2 - 2 * z ^ 2 + (1 - 2 * x ^ 2 - 2 * z ^ 2) +
          (1 - 2 * x ^ 2 - 2 * y ^ 2) + 1 : ℝ) = (2 * w) ^ 2 from by
        linear_combination (-4 : ℝ) * hq]
      exact Real.sqrt_sq_eq_abs _
    rw [hsq]
    rcases hw0.lt_or_lt with hw | hw
    · refine Or.inr ?_
      rw [abs_of_neg (by linarith : 2 * w < 0)]
      simp only [Quat.mk.injEq]
      refine ⟨?_, ?_, ?_, ?_⟩ <;> (try field_simp) <;> ring
    · refine Or.inl ?_
      rw [abs_of_pos (by linarith : (0 : ℝ) < 2 * w)]
      simp only [Quat.mk.injEq]
      refine ⟨?_, ?_, ?_, ?_⟩ <;> (try field_simp) <;> ring
  · -- sm11 dominant: pivot x
    push_neg at hb1
    obtain ⟨hb2a, hb2b⟩ := hb2
    have hx2 : (1 : ℝ) / 4 < x ^ 2 := by nlinarith [hq]
    have hx0 : x ≠ 0 := by
      intro h0
      rw [h0] at hx2
      norm_num at hx2
    have hsq : Real.sqrt (1 + (1 - 2 * y ^ 2 - 2 * z ^ 2) - (1 - 2 * x ^ 2 - 2 * z ^ 2) -
        (1 - 2 * x ^ 2 - 2 * y ^ 2)) = |2 * x| := by
      rw [show (1 + (1 - 2 * y ^ 2 - 2 * z ^ 2) - (1 - 2 * x ^ 2 - 2 * z ^ 2) -
          (1 - 2 * x ^ 2 - 2 * y ^ 2) : ℝ) = (2 * x) ^ 2 from by ring]
      exact Real.sqrt_sq_eq_abs _
    rw [hsq]
    rcases hx0.lt_or_lt with hx | hx
    · refine Or.inr ?_
      rw [abs_of_neg (by linarith : 2 * x < 0)]
      simp only [Quat.mk.injEq]
      refine ⟨?_, ?_, ?_, ?_⟩ <;> (try field_simp) <;> ring
    · refine Or.inl ?_
      rw [abs_of_pos (by linarith : (0 : ℝ) < 2 * x)]
      simp only [Quat.mk.injEq]
      refine ⟨?_, ?_, ?_, ?_⟩ <;> (try field_simp) <;> ring
  · -- sm22 dominant: pivot y
    push_neg at hb1
    have hy2 : (1 : ℝ) / 4 < y ^ 2 := by
      rcases not_and_or.mp hb2 with h | h <;> rw [not_lt] at h <;> nlinarith [hq]
    have hy0 : y ≠ 0 := by
      intro h0
      rw [h0] at hy2
      norm_num at hy2
    have hsq : Real.sqrt (1 + (1 - 2 * x ^ 2 - 2 * z ^ 2) - (1 - 2 * y ^ 2 - 2 * z ^ 2) -
        (1 - 2 * x ^ 2 - 2 * y ^ 2)) = |2 * y| := by
      rw [show (1 + (1 - 2 * x ^ 2 - 2 * z ^ 2) - (1 - 2 * y ^ 2 - 2 * z ^ 2) -
          (1 - 2 * x ^ 2 - 2 * y ^ 2) : ℝ) = (2 * y) ^ 2 from by ring]
      exact Real.sqrt_sq_eq_abs _
    rw [hsq]
    rcases hy0.lt_or_lt with hy | hy
    · refine Or.inr ?_
      rw [abs_of_neg (by linarith : 2 * y < 0)]
      simp only [Quat.mk.injEq]
      refine ⟨?_, ?_, ?_, ?_⟩ <;> (try field_simp) <;> ring
    · refine Or.inl ?_
      rw [abs_of_pos (by linarith : (0 : ℝ) < 2 * y)]
      simp only [Quat.mk.injEq]
      refine ⟨?_, ?_, ?_, ?_⟩ <;> (try field_simp) <;> ring
  · -- sm33 dominant: pivot z
    push_neg at hb1
    rw [not_lt] at hb3
    have hz2 : (1 : ℝ) / 4 ≤ z ^ 2 := by
      rcases not_and_or.mp hb2 with h | h <;> rw [not_lt] at h <;> nlinarith [hq]
    have hz0 : z ≠ 0 := by
      intro h0
      rw [h0] at hz2
      norm_num at hz2
    have hsq : Real.sqrt (1 + (1 - 2 * x ^ 2 - 2 * y ^ 2) - (1 - 2 * y ^ 2 - 2 * z ^ 2) -
        (1 - 2 * x ^ 2 - 2 * z ^ 2)) = |2 * z| := by
      rw [show (1 + (1 - 2 * x ^ 2 - 2 * y ^ 2) - (1 - 2 * y ^ 2 - 2 * z ^ 2) -
          (1 - 2 * x ^ 2 - 2 * z ^ 2) : ℝ) = (2 * z) ^ 2 from by ring]
      exact Real.sqrt_sq_eq_abs _
    rw [hsq]
    rcases hz0.lt_or_lt with hz | hz
    · refine Or.inr ?_
      rw [abs_of_neg (by linarith : 2 * z < 0)]
      simp only [Quat.mk.injEq]
      refine ⟨?_, ?_, ?_, ?_⟩ <;> (try field_simp) <;> ring
    · refine Or.inl ?_
      rw [abs_of_pos (by linarith : (0 : ℝ) < 2 * z)]
      simp only [Quat.mk.injEq]
      refine ⟨?_, ?_, ?_, ?_⟩ <;> (try field_simp) <;> ring

/-- C2 (amended): for a normalized quaternion, any translation, and a
uniform positive scale (k, k, k), decompose of
fromRotationTranslationScale recovers the translation exactly, the scale
exactly, and the quaternion exactly up to sign.  (For non-uniform scales
the round trip fails, since decompose divides entry `m{i}{j}` by scale
component `j` although the scale multiplied basis column `i`.) -/
theorem decompose_fromRTS_uniform (x y z w tx ty tz k : ℝ)
    (hq : x ^ 2 + y ^ 2 + z ^ 2 + w ^ 2 = 1) (hk : 0 < k) :
    (Mat4.decompose (Mat4.fromRotationTranslationScale ⟨x, y, z, w⟩ ⟨tx, ty, tz⟩
      ⟨k, k, k⟩)).2.1 = ⟨tx, ty, tz⟩ ∧
    (Mat4.decompose (Mat4.fromRotationTranslationScale ⟨x, y, z, w⟩ ⟨tx, ty, tz⟩
      ⟨k, k, k⟩)).2.2 = ⟨k, k, k⟩ ∧
    ((Mat4.decompose (Mat4.fromRotationTranslationScale ⟨x, y, z, w⟩ ⟨tx, ty, tz⟩
      ⟨k, k, k⟩)).1 = ⟨x, y, z, w⟩ ∨
     (Mat4.decompose (Mat4.fromRotationTranslationScale ⟨x, y, z, w⟩ ⟨tx, ty, tz⟩
      ⟨k, k, k⟩)).1 = ⟨-x, -y, -z, -w⟩) := by
  have hk0 : k ≠ 0 := ne_of_gt hk
  have hs0 : hypot3 ((1 - (y * (y + y) + z * (z + z))) * k) ((x * (y + y) + w * (z + z)) * k)
      ((x * (z + z) - w * (y + y)) * k) = k := by
    simp only [hypot3]
    rw [show ((1 - (y * (y + y) + z * (z + z))) * k) * ((1 - (y * (y + y) + z * (z + z))) * k) +
        ((x * (y + y) + w * (z + z)) * k) * ((x * (y + y) + w * (z + z)) * k) +
        ((x * (z + z) - w * (y + y)) * k) * ((x * (z + z) - w * (y + y)) * k) = k ^ 2 from by
      linear_combination (k ^ 2 * (4 * y ^ 2 + 4 * z ^ 2)) * hq]
    exact Real.sqrt_sq hk.le
  have hs1 : hypot3 ((x * (y + y) - w * (z + z)) * k) ((1 - (x * (x + x) + z * (z + z))) * k)
      ((y * (z + z) + w * (x + x)) * k) = k := by
    simp only [hypot3]
    rw [show ((x * (y + y) - w * (z + z)) * k) * ((x * (y + y) - w * (z + z)) * k) +
        ((1 - (x * (x + x) + z * (z + z))) * k) * ((1 - (x * (x + x) + z * (z + z))) * k) +
        ((y * (z + z) + w * (x + x)) * k) * ((y * (z + z) + w * (x + x)) * k) = k ^ 2 from by
      linear_combination (k ^ 2 * (4 * x ^ 2 + 4 * z ^ 2)) * hq]
    exact Real.sqrt_sq hk.le
  have hs2 : hypot3 ((x * (z + z) + w * (y + y)) * k) ((y * (z + z) - w * (x + x)) * k)
      ((1 - (x * (x + x) + y * (y + y))) * k) = k := by
    simp only [hypot3]
    rw [show ((x * (z + z) + w * (y + y)) * k) * ((x * (z + z) + w * (y + y)) * k) +
        ((y * (z + z) - w * (x + x)) * k) * ((y * (z + z) - w * (x + x)) * k) +
        ((1 - (x * (x + x) + y * (y + y))) * k) * ((1 - (x * (x + x) + y * (y + y))) * k) =
        k ^ 2 from by
      linear_combination (k ^ 2 * (4 * x ^ 2 + 4 * y ^ 2)) * hq]
    exact Real.sqrt_sq hk.le
  simp only [Mat4.decompose, Mat4.fromRotationTranslationScale]
  rw [hs0, hs1, hs2]
  refine ⟨trivial, rfl, ?_⟩
  refine quat_branch_select _ x y z w hq ?_ ?_ ?_ ?_ ?_ ?_ ?_ ?_ ?_ rfl <;>
    field_simp <;> ring

/-- Witness for C2 (amended) at the normalized quaternion
(0, 0, 3/5, 4/5), translation (7, 8, 9), and uniform scale (2, 2, 2). -/
theorem decompose_fromRTS_uniform_witness :
    (Mat4.decompose (Mat4.fromRotationTranslationScale ⟨0, 0, 3/5, 4/5⟩ ⟨7, 8, 9⟩
      ⟨2, 2, 2⟩)).2.1 = ⟨7, 8, 9⟩ ∧
    (Mat4.decompose (Mat4.fromRotationTranslationScale ⟨0, 0, 3/5, 4/5⟩ ⟨7, 8, 9⟩
      ⟨2, 2, 2⟩)).2.2 = ⟨2, 2, 2⟩ ∧
    ((Mat4.decompose (Mat4.fromRotationTranslationScale ⟨0, 0, 3/5, 4/5⟩ ⟨7, 8, 9⟩
      ⟨2, 2, 2⟩)).1 = ⟨0, 0, 3/5, 4/5⟩ ∨
     (Mat4.decompose (Mat4.fromRotationTranslationScale ⟨0, 0, 3/5, 4/5⟩ ⟨7, 8, 9⟩
      ⟨2, 2, 2⟩)).1 = ⟨-0, -0, -(3/5), -(4/5)⟩) :=
  decompose_fromRTS_uniform 0 0 (3/5) (4/5) 7 8 9 2 (by norm_num) (by norm_num)

end GlMatrix
